import Mathlib

/-!
Verification of the chat-session persistence and streaming-reconciliation
logic of the AI_chatBot backend (src/backend/main.py).

The relational store (SQLite tables chat_sessions, chat_messages,
chat_attachments) is embedded as lists of rows; each handler of main.py
that the claims reference is embedded as a pure function over that state,
with the outcomes of external effects (OpenAI calls, disk listing,
individual database transactions) supplied explicitly as oracle values.
UUIDs generated by the handlers are supplied as explicit fresh names, and
ISO timestamps are modelled as naturals.
-/

/-- A row of the chat_sessions table (see the CREATE/INSERT statements in
main.py: columns id, user_id, created_at, last_updated_at, title,
system_prompt). -/
structure SessionRow where
  id : String
  user_id : String
  created_at : Nat
  last_updated_at : Nat
  title : Option String := none
  system_prompt : Option String := none
  deriving DecidableEq, Repr

/-- A row of the chat_messages table (columns id, session_id, user_id, role,
content, timestamp, model_used, is_deleted, edited_at). -/
structure MessageRow where
  id : String
  session_id : String
  user_id : String
  role : String
  content : String
  timestamp : Nat
  model_used : Option String := none
  is_deleted : Bool := false
  edited_at : Option Nat := none
  deriving DecidableEq, Repr

/-- A row of the chat_attachments table (columns id, message_id, user_id,
filename, filepath, filesize, mimetype, uploaded_at). -/
structure AttachmentRow where
  id : String
  message_id : String
  user_id : String
  filename : String
  filepath : String
  filesize : Nat
  mimetype : String
  uploaded_at : Nat
  deriving DecidableEq, Repr

/-- The durable store: the three tables the claims are about. -/
structure DBState where
  sessions : List SessionRow := []
  messages : List MessageRow := []
  attachments : List AttachmentRow := []
  deriving DecidableEq, Repr

/-- The session upsert executed before every message insert
(main.py lines 474-479, 572-577, 598, 634, 669, 714, 740-745, 1512-1517,
1598, 1634, 1677):
INSERT INTO chat_sessions (id, user_id, created_at, last_updated_at)
VALUES (?, ?, ?, ?) ON CONFLICT(id) DO UPDATE SET
last_updated_at = excluded.last_updated_at. -/
def touch_session_rows (tbl : List SessionRow) (sid uid : String) (now : Nat) :
    List SessionRow :=
  if tbl.any (fun s => s.id == sid) then
    tbl.map (fun s => if s.id == sid then { s with last_updated_at := now } else s)
  else
    tbl ++ [{ id := sid, user_id := uid, created_at := now, last_updated_at := now }]

/-- The session upsert lifted to the whole store. -/
def touch_session (st : DBState) (sid uid : String) (now : Nat) : DBState :=
  { st with sessions := touch_session_rows st.sessions sid uid now }

/-- INSERT INTO chat_messages (id, session_id, user_id, role, content,
timestamp[, model_used]) VALUES (...) — the direct message insert used by
every save site in main.py. -/
def insert_chat_message (st : DBState) (mid sid uid role content : String)
    (now : Nat) (mu : Option String) : DBState :=
  { st with
    messages := st.messages ++
      [{ id := mid, session_id := sid, user_id := uid, role := role,
         content := content, timestamp := now, model_used := mu }] }

/-- One "direct save" transaction of main.py: the session upsert followed by
the message insert (e.g. lines 468-487, 566-584, 1506-1524, 1594-1600). -/
def save_message_with_touch (st : DBState) (mid sid uid role content : String)
    (now : Nat) (mu : Option String) : DBState :=
  insert_chat_message (touch_session st sid uid now) mid sid uid role content now mu

/-- Ordering used to embed ORDER BY timestamp ASC. -/
def tsLe (a b : MessageRow) : Prop := a.timestamp ≤ b.timestamp

instance : DecidableRel tsLe := fun a b => inferInstanceAs (Decidable (a.timestamp ≤ b.timestamp))

instance : IsTotal MessageRow tsLe := ⟨fun a b => Nat.le_total a.timestamp b.timestamp⟩

instance : IsTrans MessageRow tsLe := ⟨fun _ _ _ => Nat.le_trans⟩

/-- ORDER BY timestamp ASC, embedded as a sort of the selected rows. -/
def sortByTimestamp (l : List MessageRow) : List MessageRow :=
  List.insertionSort tsLe l

/-- Ordering used to embed ORDER BY last_updated_at DESC on sessions. -/
def sessionDescLe (a b : SessionRow) : Prop := b.last_updated_at ≤ a.last_updated_at

instance : DecidableRel sessionDescLe :=
  fun a b => inferInstanceAs (Decidable (b.last_updated_at ≤ a.last_updated_at))

instance : IsTotal SessionRow sessionDescLe := ⟨fun a b => Nat.le_total b.last_updated_at a.last_updated_at⟩

instance : IsTrans SessionRow sessionDescLe := ⟨fun _ _ _ h h2 => Nat.le_trans h2 h⟩

/-- ORDER BY last_updated_at DESC, embedded as a sort of the selected rows. -/
def sortByLastUpdatedDesc (l : List SessionRow) : List SessionRow :=
  List.insertionSort sessionDescLe l

/-- GET /api/chat_sessions/S/messages (main.py lines 1231-1313,
get_session_messages): verify ownership of the session (empty list when the
check fails), then select the non-deleted messages of the session ordered by
timestamp ascending, each paired with its chat_attachments rows. -/
def get_session_messages (st : DBState) (sid uid : String) :
    List (MessageRow × List AttachmentRow) :=
  if st.sessions.any (fun s => s.id == sid && s.user_id == uid) then
    (sortByTimestamp (st.messages.filter
        (fun m => m.session_id == sid && !m.is_deleted))).map
      (fun m => (m, st.attachments.filter (fun a => a.message_id == m.id)))
  else []

/-- GET /api/debug/session_messages/S (main.py lines 1739-1779,
debug_session_messages): all messages of the session, deleted ones included,
ordered by timestamp ascending, with no ownership filter on the rows. -/
def debug_session_messages (st : DBState) (sid : String) : List MessageRow :=
  sortByTimestamp (st.messages.filter (fun m => m.session_id == sid))

/-- DELETE /api/chat_sessions/S (main.py lines 1319-1352,
delete_chat_session): if no session row matches id and owner, return 204
with no change; otherwise mark every message of the session deleted and
remove the session metadata row. -/
def delete_chat_session (st : DBState) (sid uid : String) : DBState :=
  if st.sessions.any (fun s => s.id == sid && s.user_id == uid) then
    { st with
      messages := st.messages.map
        (fun m => if m.session_id == sid then { m with is_deleted := true } else m),
      sessions := st.sessions.filter (fun s => !(s.id == sid && s.user_id == uid)) }
  else st

/-- PATCH /api/chat_messages/M (main.py lines 1785-1827,
update_chat_message): the gate query is
SELECT * FROM chat_messages WHERE id = ? AND user_id = ? AND
role = 'user' AND is_deleted = FALSE; when it returns nothing the handler
raises 404, otherwise it updates content and edited_at of the row.
The result is the HTTP status paired with the resulting store. -/
def update_chat_message (st : DBState) (message_id uid new_content : String)
    (now : Nat) : Nat × DBState :=
  match st.messages.find?
      (fun m => m.id == message_id && m.user_id == uid &&
                m.role == "user" && !m.is_deleted) with
  | none => (404, st)
  | some _ =>
      (200, { st with
        messages := st.messages.map (fun m =>
          if m.id == message_id then
            { m with content := new_content, edited_at := some now }
          else m) })

/-- The first non-deleted user message of a session, by the subquery of
list_chat_sessions (main.py line 1197): SELECT content FROM chat_messages
WHERE session_id = ? AND role = 'user' AND is_deleted = FALSE
ORDER BY timestamp ASC LIMIT 1. -/
def first_user_message (st : DBState) (sid : String) : Option String :=
  ((sortByTimestamp (st.messages.filter
      (fun m => m.session_id == sid && m.role == "user" && !m.is_deleted))).map
    (fun m => m.content)).head?

/-- Title resolution of list_chat_sessions (main.py lines 1204-1214): a
falsy custom title (NULL or empty) falls back to the first user message —
the source tests first_message for truthiness, so a NULL subquery result
and an empty content string both fall through: truncation to 47 characters
plus an ellipsis when the (truthy) content is longer than 50, the content
itself when truthy and no longer than 50, and otherwise the generic label
derived from the session id. -/
def resolve_title (custom_title : Option String) (first_msg : Option String)
    (sid : String) : String :=
  if custom_title.getD "" == "" then
    match first_msg with
    | some m =>
        if m != "" && m.length > 50 then m.take 47 ++ "..."
        else if m != "" then m
        else "Chat Session (" ++ sid.take 6 ++ "...)"
    | none => "Chat Session (" ++ sid.take 6 ++ "...)"
  else custom_title.getD ""

/-- The title displayed for one session row. -/
def display_title (st : DBState) (s : SessionRow) : String :=
  resolve_title s.title (first_user_message st s.id) s.id

/-- GET /api/chat_sessions (main.py lines 1184-1223, list_chat_sessions):
the caller's sessions ordered by last_updated_at descending, as
(session id, displayed title) pairs. -/
def list_chat_sessions (st : DBState) (uid : String) : List (String × String) :=
  (sortByLastUpdatedDesc (st.sessions.filter (fun s => s.user_id == uid))).map
    (fun s => (s.id, display_title st s))

/-- Infix test over character lists, embedding the Python substring test
needle in haystack. -/
def listHasInfix (needle : List Char) : List Char → Bool
  | [] => needle.isEmpty
  | c :: rest => needle.isPrefixOf (c :: rest) || listHasInfix needle rest

/-- Title-generation detection (main.py lines 449 and 618):
title_generation_mode is on when the session id contains the substring
__title_gen or the purpose equals Generate title. -/
def title_gen_mode (sid purpose : String) : Bool :=
  listHasInfix "__title_gen".data sid.data || purpose == "Generate title"

/-- One entry of ChatRequest.messages (models.py ChatMessage). -/
structure ChatMsg where
  role : String
  content : String
  deriving DecidableEq, Repr

/-- One entry of ChatRequest.attachments (models.py AttachmentData). -/
structure AttachmentData where
  temp_file_id : String
  original_filename : String
  filesize : Nat
  mimetype : String
  deriving DecidableEq, Repr

/-- The body of POST /api/chat (models.py ChatRequest). -/
structure ChatRequest where
  messages : List ChatMsg
  purpose : String
  model_id : Option String := none
  session_id : Option String := none
  attachments : List AttachmentData := []
  deriving DecidableEq, Repr

/-- Outcome of the upstream work done by chat_with_custom_model, as an
oracle: the custom_models lookup can miss; an assistant run can end
non-completed or produce a reply; the custom GPT call can return no choices
or a reply. -/
inductive CustomOutcome where
  | modelNotFound
  | assistantRunFailed (status : String)
  | assistantReply (content : String)
  | gptNoChoices
  | gptReply (content : String)
  deriving DecidableEq, Repr

/-- External-effect oracle for one chat_with_custom_model call: the fresh
message id it would use, the clock, the upstream outcome, and whether each
of its two direct-save transactions would commit. -/
structure CustomEnv where
  now : Nat
  message_id : String
  outcome : CustomOutcome
  save_ok : Bool := true
  error_save_ok : Bool := true
  deriving DecidableEq, Repr

/-- Normalization of an empty assistant reply (main.py lines 553-554 and
725-726); the source literal is the apology string with a contracted verb. -/
def normalize_reply (c : String) : String :=
  if c == "" then "Sorry, I could not generate a response." else c

/-- chat_with_custom_model (main.py lines 614-781). It computes
title_generation_mode from the session id and purpose itself (line 618).
The assistant-run-failure save (lines 663-674) and the no-choices save
(lines 708-719) run regardless of title-generation mode; the success save
(lines 728-764) is skipped in title-generation mode. Any failure is
re-raised by the outer handler as HTTP 500 (line 781). Returns the HTTP
outcome — ok carries (content, model_used) — and the resulting store. -/
def chat_with_custom_model (cenv : CustomEnv) (uid sid mid purpose : String)
    (st : DBState) : Except Nat (String × String) × DBState :=
  let titleGen := title_gen_mode sid purpose
  match cenv.outcome with
  | .modelNotFound => (.error 500, st)
  | .assistantRunFailed status =>
      let mu := "custom:assistant:" ++ mid
      let content := "Assistant run failed. Status: " ++ status
      let st1 := if cenv.error_save_ok then
          save_message_with_touch st cenv.message_id sid uid "assistant" content
            cenv.now (some (mu ++ "-error"))
        else st
      (.error 500, st1)
  | .assistantReply c =>
      let mu := "custom:assistant:" ++ mid
      let content := normalize_reply c
      let st1 := if titleGen then st
        else if cenv.save_ok then
          save_message_with_touch st cenv.message_id sid uid "assistant" content
            cenv.now (some mu)
        else st
      (.ok (content, mu), st1)
  | .gptNoChoices =>
      let mu := "custom:gpt:gpt-4o-mini"
      let content := "Error: No response choices received from OpenAI for custom GPT model."
      let st1 := if cenv.error_save_ok then
          save_message_with_touch st cenv.message_id sid uid "assistant" content
            cenv.now (some (mu ++ "-error"))
        else st
      (.error 500, st1)
  | .gptReply c =>
      let mu := "custom:gpt:gpt-4o-mini"
      let content := normalize_reply c
      let st1 := if titleGen then st
        else if cenv.save_ok then
          save_message_with_touch st cenv.message_id sid uid "assistant" content
            cenv.now (some mu)
        else st
      (.ok (content, mu), st1)

/-- The per-attachment upload-directory scan (main.py lines 495-503): list
the upload directory and take the first file name that starts with the
temporary id. A listing failure is caught inside the loop and yields no
match for that attachment (the continue on line 503). -/
def find_upload_file (dir : Except Unit (List String)) (temp_id : String) :
    Option String :=
  match dir with
  | .error _ => none
  | .ok files => files.find? (fun f => temp_id.isPrefixOf f)

/-- The attachment row inserted when a pending upload is linked (main.py
lines 505-512); the random attachment id is modelled as a name derived from
the temporary id. -/
def linked_attachment_row (att : AttachmentData) (fname message_id uid : String)
    (now : Nat) : AttachmentRow :=
  { id := att.temp_file_id ++ "-att", message_id := message_id, user_id := uid,
    filename := att.original_filename, filepath := "uploads/" ++ fname,
    filesize := att.filesize, mimetype := att.mimetype, uploaded_at := now }

/-- One iteration of the attachment-linking loop (main.py lines 494-515):
on a match insert a chat_attachments row, otherwise log and move on. -/
def link_one (st : DBState) (dir : Except Unit (List String))
    (att : AttachmentData) (message_id uid : String) (now : Nat) : DBState :=
  match find_upload_file dir att.temp_file_id with
  | some fname =>
      { st with attachments := st.attachments ++
          [linked_attachment_row att fname message_id uid now] }
  | none => st

/-- The attachment-linking loop of POST /api/chat (main.py lines 491-516):
for each reference, scan the upload directory; on a match insert a
chat_attachments row, otherwise log and move on. -/
def link_attachments (st : DBState) (dir : Except Unit (List String))
    (atts : List AttachmentData) (message_id uid : String) (now : Nat) : DBState :=
  atts.foldl (fun acc att => link_one acc dir att message_id uid now) st

/-- External-effect oracle for one POST /api/chat call. -/
structure ChatEnv where
  now : Nat
  fresh_session_id : String
  user_message_id : String
  assistant_message_id : String
  upload_dir : Except Unit (List String) := .ok []
  user_save_ok : Bool := true
  assistant_save_ok : Bool := true
  custom : CustomEnv
  default_reply : Except Unit String := .ok ""
  deriving Repr

/-- session_id = request.session_id or str(uuid.uuid4()) (main.py line 445);
the Python or also replaces an empty string. -/
def effective_session_id (req : ChatRequest) (env : ChatEnv) : String :=
  match req.session_id with
  | some s => if s == "" then env.fresh_session_id else s
  | none => env.fresh_session_id

/-- POST /api/chat (main.py lines 441-612, chat). Validation first (empty
history is 400, trailing role other than user is 400); outside
title-generation mode the user message is saved with the session upsert and
the attachments are linked (a failed save is 500); then the turn is routed
to chat_with_custom_model or to the default model, whose reply is
normalized and — default path, outside title-generation mode — saved
best-effort (a failed assistant save is only logged, line 595). Ok carries
(reply content, resolved session id). -/
def chat (req : ChatRequest) (uid : String) (env : ChatEnv) (st : DBState) :
    Except Nat (String × String) × DBState :=
  let sid := effective_session_id req env
  let titleGen := title_gen_mode sid req.purpose
  if req.messages.isEmpty then (.error 400, st)
  else if (req.messages.getLastD { role := "", content := "" }).role != "user" then
    (.error 400, st)
  else
    let userContent := (req.messages.getLastD { role := "", content := "" }).content
    if titleGen then
      match req.model_id with
      | some mid =>
          match chat_with_custom_model env.custom uid sid mid req.purpose st with
          | (.ok (content, _mu), st2) => (.ok (content, sid), st2)
          | (.error _, st2) => (.error 500, st2)
      | none =>
          match env.default_reply with
          | .error _ => (.error 500, st)
          | .ok c => (.ok (normalize_reply c, sid), st)
    else if !env.user_save_ok then (.error 500, st)
    else
      let st1 := save_message_with_touch st env.user_message_id sid uid "user"
        userContent env.now none
      let st2 := link_attachments st1 env.upload_dir req.attachments
        env.user_message_id uid env.now
      match req.model_id with
      | some mid =>
          match chat_with_custom_model env.custom uid sid mid req.purpose st2 with
          | (.ok (content, _mu), st3) => (.ok (content, sid), st3)
          | (.error _, st3) => (.error 500, st3)
      | none =>
          match env.default_reply with
          | .error _ => (.error 500, st2)
          | .ok c =>
              let content := normalize_reply c
              let st3 := if env.assistant_save_ok then
                  save_message_with_touch st2 env.assistant_message_id sid uid
                    "assistant" content env.now (some "gpt-4o-mini")
                else st2
              (.ok (content, sid), st3)

/-- One server-sent event of the streaming protocol (main.py
stream_chat_generator): a data payload carrying a chunk, an error, or the
terminal done marker with the resolved session id. -/
inductive StreamEvent where
  | chunk (text : String)
  | err (text : String)
  | done (session_id : String)
  deriving DecidableEq, Repr

/-- The request-shaped inputs of stream_chat_generator (main.py lines
1455-1461): the parsed history is abstracted to its validity, the role of
its last entry and that entry's content; session_id is the already-resolved
current_session_id (line 1462). -/
structure StreamInput where
  history_valid : Bool
  last_role_user : Bool
  user_content : String
  purpose : String
  model_id : Option String := none
  session_id : String
  user_id : String
  deriving DecidableEq, Repr

/-- External-effect oracle for one stream_chat_generator run: fresh message
ids, the clock, the outcome of each direct-save transaction, the custom
model oracle, the chunk contents produced by the default-model stream with
whether that stream raised after them, and whether an unexpected exception
reaches the generator-level catch-all. -/
structure StreamEnv where
  now : Nat
  user_message_id : String
  assistant_message_id : String
  error_message_id : String
  outer_message_id : String
  user_save_ok : Bool := true
  assistant_save_ok : Bool := true
  error_save_ok : Bool := true
  outer_save_ok : Bool := true
  custom : CustomEnv
  chunks : List String := []
  upstream_fails : Bool := false
  unexpected_error : Bool := false
  deriving Repr

/-- The outcome of one stream_chat_generator run: the event sequence sent to
the client, the resulting store, and whether the upstream model was
invoked. -/
structure StreamResult where
  events : List StreamEvent
  db : DBState
  upstream_called : Bool
  deriving Repr

/-- stream_chat_generator (main.py lines 1455-1705). Invalid history yields
one error event and returns with no done event (lines 1495-1498); a failed
user-message save yields one error event and returns before any upstream
call (lines 1527-1531); a last history entry that is not user-role skips
the user save but continues (lines 1532-1533). The custom-model branch
(lines 1539-1561) sets the message_saved flag on both success and failure;
the default branch streams chunk events, then saves the buffer when it is
non-empty (lines 1590-1620, flag set only when that save commits) or, on an
upstream failure, yields an error event and saves an error-tagged message
(lines 1622-1654). The generator-level catch-all (lines 1664-1699) yields
an error event and writes a second record only when the message_saved flag
is still false; only the non-exceptional exit emits the done event
(lines 1658-1661). The Streaming Logic section of the generator (main.py
lines 1538-1656) — the custom-model branch or the default-model chunk loop,
run after the user message has been handled — is split out as
stream_model_phase, returning the events it yields, the resulting store,
and the message_saved flag. -/
def stream_model_phase (inp : StreamInput) (env : StreamEnv) (st1 : DBState) :
    List StreamEvent × DBState × Bool :=
  match inp.model_id with
  | some mid =>
      match chat_with_custom_model env.custom inp.user_id inp.session_id mid
          inp.purpose st1 with
      | (.ok (content, _mu), st2) =>
          ((if content != "" then [StreamEvent.chunk content] else []), st2, true)
      | (.error _, st2) =>
          ([StreamEvent.err "Error with custom model"], st2, true)
  | none =>
      let chunkEvents := env.chunks.map StreamEvent.chunk
      if env.upstream_fails then
        let st2 := if env.error_save_ok then
            save_message_with_touch st1 env.error_message_id inp.session_id
              inp.user_id "assistant" "Error communicating with AI model"
              env.now (some "gpt-4o-mini-error")
          else st1
        (chunkEvents ++ [StreamEvent.err "Error communicating with AI model"],
         st2, env.error_save_ok)
      else
        let buffer := String.join env.chunks
        if buffer != "" && env.assistant_save_ok then
          (chunkEvents,
           save_message_with_touch st1 env.assistant_message_id inp.session_id
             inp.user_id "assistant" buffer env.now (some "gpt-4o-mini"),
           true)
        else (chunkEvents, st1, false)

/-- The end of the generator after the user message has been handled: run
the Streaming Logic phase, then either the generator-level catch-all (an
error event, and a second record only when the message_saved flag is still
false — main.py lines 1664-1699) or the normal exit with the done event
(lines 1658-1661). -/
def stream_finish (inp : StreamInput) (env : StreamEnv) (st1 : DBState) :
    StreamResult :=
  let mid3 := stream_model_phase inp env st1
  let midEvents := mid3.1
  let st2 := mid3.2.1
  let msgSaved := mid3.2.2
  if env.unexpected_error then
    let st3 := if !msgSaved && env.outer_save_ok then
        save_message_with_touch st2 env.outer_message_id inp.session_id
          inp.user_id "assistant" "An unexpected server error occurred"
          env.now none
      else st2
    { events := midEvents ++ [.err "An unexpected server error occurred"],
      db := st3, upstream_called := true }
  else
    { events := midEvents ++ [.done inp.session_id], db := st2,
      upstream_called := true }

def stream_chat_generator (inp : StreamInput) (env : StreamEnv) (st : DBState) :
    StreamResult :=
  if !inp.history_valid then
    { events := [.err "Invalid history format"], db := st, upstream_called := false }
  else if inp.last_role_user && !env.user_save_ok then
    { events := [.err "Failed to save user message."], db := st, upstream_called := false }
  else
    let st1 := if inp.last_role_user then
        save_message_with_touch st env.user_message_id inp.session_id inp.user_id
          "user" inp.user_content env.now none
      else st
    stream_finish inp env st1

/-- Counting helper: user-role rows of a message table. -/
def userCount (l : List MessageRow) : Nat :=
  l.countP (fun m => m.role == "user")

/-- Counting helper: assistant-role rows of a message table. -/
def assistantCount (l : List MessageRow) : Nat :=
  l.countP (fun m => m.role == "assistant")

/-- Counting helper: done events of an event sequence. -/
def doneCount (l : List StreamEvent) : Nat :=
  l.countP (fun e => match e with | .done _ => true | _ => false)

/-- One message append to a fixed session: the fresh message id, the content
and the clock value of that append. -/
structure AppendCall where
  message_id : String
  content : String
  now : Nat
  deriving DecidableEq, Repr

/-- A sequence of user-message appends to the same session, each one running
the direct-save transaction (session upsert followed by message insert). -/
def append_user_messages (st : DBState) (sid uid : String)
    (calls : List AppendCall) : DBState :=
  calls.foldl
    (fun acc c =>
      save_message_with_touch acc c.message_id sid uid "user" c.content c.now none)
    st

/-- Sample message authored by user u2 (used to exercise the edit gate). -/
def sampleMsgU2 : MessageRow :=
  { id := "m1", session_id := "s1", user_id := "u2", role := "user",
    content := "hi", timestamp := 1 }

/-- Sample soft-deleted message (used to exercise the hidden-but-preserved
view). -/
def sampleDeletedMsg : MessageRow :=
  { id := "m3", session_id := "s1", user_id := "u1", role := "user",
    content := "old", timestamp := 3, is_deleted := true }

/-- Sample store: session s1 owned by u1, holding sampleMsgU2, an assistant
reply and a soft-deleted message, plus one attachment on the assistant
message. -/
def sampleStore : DBState :=
  { sessions := [{ id := "s1", user_id := "u1", created_at := 1, last_updated_at := 2 }],
    messages :=
      [sampleMsgU2,
       { id := "m2", session_id := "s1", user_id := "u1", role := "assistant",
         content := "yo", timestamp := 2, model_used := some "gpt-4o-mini" },
       sampleDeletedMsg],
    attachments :=
      [{ id := "a1", message_id := "m2", user_id := "u1", filename := "f.txt",
         filepath := "uploads/f.txt", filesize := 3, mimetype := "text/plain",
         uploaded_at := 2 }] }

/-- Sample custom-model oracle (a plain GPT reply). -/
def sampleCustomEnv : CustomEnv :=
  { now := 5, message_id := "cm-msg", outcome := .gptReply "ok" }

/-- Streaming input of a well-formed turn on the default model. -/
def c1Input : StreamInput :=
  { history_valid := true, last_role_user := true, user_content := "hello",
    purpose := "chat", model_id := none, session_id := "s1", user_id := "u1" }

/-- Streaming oracle where every save commits and the upstream stream
terminates successfully after producing no content at all. -/
def c1Env : StreamEnv :=
  { now := 7, user_message_id := "um1", assistant_message_id := "am1",
    error_message_id := "em1", outer_message_id := "om1",
    custom := sampleCustomEnv, chunks := [] }

/-- Streaming input whose history does not parse as a non-empty list. -/
def c2Input : StreamInput :=
  { history_valid := false, last_role_user := true, user_content := "hello",
    purpose := "chat", model_id := none, session_id := "s1", user_id := "u1" }

/-- Blocking chat request carrying one attachment reference. -/
def c3Req : ChatRequest :=
  { messages := [{ role := "user", content := "hello" }], purpose := "chat",
    session_id := some "s1",
    attachments := [{ temp_file_id := "tmp1", original_filename := "f.txt",
                      filesize := 3, mimetype := "text/plain" }] }

/-- Blocking chat oracle where listing the upload directory raises and the
default model replies normally. -/
def c3Env : ChatEnv :=
  { now := 9, fresh_session_id := "fresh", user_message_id := "um2",
    assistant_message_id := "am2", upload_dir := .error (),
    custom := sampleCustomEnv, default_reply := .ok "hi" }

/-- Blocking chat request in title-generation mode routed to a custom
model. -/
def c10Req : ChatRequest :=
  { messages := [{ role := "user", content := "hello" }], purpose := "chat",
    model_id := some "cm1", session_id := some "s9__title_gen" }

/-- Blocking chat oracle whose custom-model assistant run ends
non-completed. -/
def c10Env : ChatEnv :=
  { now := 9, fresh_session_id := "fresh", user_message_id := "um3",
    assistant_message_id := "am3",
    custom := { now := 9, message_id := "er3", outcome := .assistantRunFailed "expired" } }

/-- Blocking chat request in title-generation mode (by purpose) on the
default model. -/
def c10OkReq : ChatRequest :=
  { messages := [{ role := "user", content := "hi" }],
    purpose := "Generate title", session_id := some "s2" }

/-- Sample session without an explicit title. -/
def c9EmptySession : SessionRow :=
  { id := "s8", user_id := "u1", created_at := 1, last_updated_at := 1 }

/-- Sample store whose only message in session s8 is a user message with
empty content (reachable: the streaming save persists the last history
entry's content with no non-emptiness check). -/
def c9EmptyStore : DBState :=
  { sessions := [c9EmptySession],
    messages := [{ id := "m9", session_id := "s8", user_id := "u1",
                   role := "user", content := "", timestamp := 1 }] }

/-! ## Shared lemmas -/

theorem messages_save_with_touch (st : DBState) (mid sid uid role content : String)
    (now : Nat) (mu : Option String) :
    (save_message_with_touch st mid sid uid role content now mu).messages =
      st.messages ++
        [{ id := mid, session_id := sid, user_id := uid, role := role,
           content := content, timestamp := now, model_used := mu }] := rfl

theorem sessions_save_with_touch (st : DBState) (mid sid uid role content : String)
    (now : Nat) (mu : Option String) :
    (save_message_with_touch st mid sid uid role content now mu).sessions =
      touch_session_rows st.sessions sid uid now := rfl

theorem userCount_save_with_touch (st : DBState) (mid sid uid role content : String)
    (now : Nat) (mu : Option String) :
    userCount (save_message_with_touch st mid sid uid role content now mu).messages =
      userCount st.messages + (if role == "user" then 1 else 0) := by
  simp [userCount, messages_save_with_touch, List.countP_append, List.countP_cons]

theorem assistantCount_save_with_touch (st : DBState) (mid sid uid role content : String)
    (now : Nat) (mu : Option String) :
    assistantCount (save_message_with_touch st mid sid uid role content now mu).messages =
      assistantCount st.messages + (if role == "assistant" then 1 else 0) := by
  simp [assistantCount, messages_save_with_touch, List.countP_append, List.countP_cons]

theorem touch_rows_fresh (tbl : List SessionRow) (sid uid : String) (now : Nat)
    (h : tbl.countP (fun s => s.id == sid) = 0) :
    (touch_session_rows tbl sid uid now).filter (fun s => s.id == sid)
      = [{ id := sid, user_id := uid, created_at := now, last_updated_at := now }] := by
  have hall : ∀ s ∈ tbl, ¬((s.id == sid) = true) := by
    simpa using List.countP_eq_zero.mp h
  have hany : tbl.any (fun s => s.id == sid) = false := by
    simp only [List.any_eq_false]
    exact hall
  have hnil : tbl.filter (fun s => s.id == sid) = [] := by
    simp only [List.filter_eq_nil_iff]
    exact hall
  unfold touch_session_rows
  simp [hany, List.filter_append, hnil]

theorem touch_rows_existing (tbl : List SessionRow) (sid uid : String) (now : Nat)
    (r : SessionRow) (h : tbl.filter (fun s => s.id == sid) = [r]) :
    (touch_session_rows tbl sid uid now).filter (fun s => s.id == sid)
      = [{ r with last_updated_at := now }] := by
  have hr : r ∈ tbl.filter (fun s => s.id == sid) := by
    rw [h]; exact List.mem_singleton_self r
  have hrmem : r ∈ tbl := List.mem_of_mem_filter hr
  have hrid : (r.id == sid) = true := (List.mem_filter.mp hr).2
  have hany : tbl.any (fun s => s.id == sid) = true :=
    List.any_eq_true.mpr ⟨r, hrmem, hrid⟩
  have hcomp : ((fun s : SessionRow => s.id == sid) ∘
      (fun s => if s.id == sid then { s with last_updated_at := now } else s))
      = (fun s : SessionRow => s.id == sid) := by
    funext s
    by_cases hc : s.id = sid <;> simp [hc]
  unfold touch_session_rows
  rw [hany]
  simp only [if_true]
  rw [List.filter_map, hcomp, h]
  have hr2 : r.id = sid := by simpa using hrid
  simp [hr2]

theorem fold_touch_rows (sid uid : String) (ns : List Nat) :
    ∀ (tbl : List SessionRow) (r : SessionRow),
      tbl.filter (fun s => s.id == sid) = [r] →
      (ns.foldl (fun t n => touch_session_rows t sid uid n) tbl).filter
          (fun s => s.id == sid)
        = [{ r with last_updated_at := ns.getLastD r.last_updated_at }] := by
  induction ns with
  | nil =>
      intro tbl r h
      simpa using h
  | cons n ns ih =>
      intro tbl r h
      have h1 := touch_rows_existing tbl sid uid n r h
      have h2 := ih (touch_session_rows tbl sid uid n) { r with last_updated_at := n } h1
      rw [List.foldl_cons, List.getLastD_cons]
      exact h2

theorem append_user_messages_sessions (sid uid : String) (calls : List AppendCall) :
    ∀ st : DBState, (append_user_messages st sid uid calls).sessions
      = calls.foldl (fun t c => touch_session_rows t sid uid c.now) st.sessions := by
  induction calls with
  | nil => intro st; rfl
  | cons c cs ih =>
      intro st
      exact ih (save_message_with_touch st c.message_id sid uid "user" c.content c.now none)

/-! ## C6 -/

/-- C6: appending N messages (N at least 1) to the same session id yields
exactly one chat_sessions row for that id, with created_at equal to the
clock of the first append and last_updated_at equal to the clock of the
last append — the upsert inserts created_at = last_updated_at = now when
the row is absent and on conflict updates only last_updated_at. -/
theorem session_upsert_single_row (sid uid : String) (st : DBState)
    (h0 : st.sessions.countP (fun s => s.id == sid) = 0)
    (first : AppendCall) (rest : List AppendCall) :
    (append_user_messages st sid uid (first :: rest)).sessions.filter
        (fun s => s.id == sid)
      = [{ id := sid, user_id := uid, created_at := first.now,
           last_updated_at := (rest.map AppendCall.now).getLastD first.now }] := by
  rw [append_user_messages_sessions]
  simp only [List.foldl_cons]
  rw [← List.foldl_map AppendCall.now (fun t n => touch_session_rows t sid uid n) rest]
  exact fold_touch_rows sid uid (rest.map AppendCall.now)
    (touch_session_rows st.sessions sid uid first.now)
    { id := sid, user_id := uid, created_at := first.now, last_updated_at := first.now }
    (touch_rows_fresh st.sessions sid uid first.now h0)

/-- C6 witness: three appends to a fresh session at clocks 1, 2, 3 leave one
session row with created_at 1 and last_updated_at 3. -/
theorem session_upsert_single_row_witness :
    (({} : DBState).sessions.countP (fun s => s.id == "s7") = 0) ∧
    (append_user_messages {} "s7" "u1"
        [⟨"m1", "a", 1⟩, ⟨"m2", "b", 2⟩, ⟨"m3", "c", 3⟩]).sessions.filter
        (fun s => s.id == "s7")
      = [{ id := "s7", user_id := "u1", created_at := 1, last_updated_at := 3 }] :=
  ⟨by decide,
   session_upsert_single_row "s7" "u1" {} (by decide) ⟨"m1", "a", 1⟩
     [⟨"m2", "b", 2⟩, ⟨"m3", "c", 3⟩]⟩

/-! ## C7 -/

/-- C7: deleting a session owned by the caller marks every member message
soft-deleted and removes the session metadata row; deleting a non-existent
or foreign session is a silent no-op; hence a second delete of the same
session by its owner succeeds and changes nothing (delete is idempotent). -/
theorem delete_session_soft_delete_idempotent (st : DBState) (sid uid : String) :
    (st.sessions.any (fun s => s.id == sid && s.user_id == uid) = true →
      (∀ m ∈ (delete_chat_session st sid uid).messages,
          m.session_id = sid → m.is_deleted = true) ∧
      (∀ s ∈ (delete_chat_session st sid uid).sessions,
          ¬(s.id = sid ∧ s.user_id = uid))) ∧
    (st.sessions.any (fun s => s.id == sid && s.user_id == uid) = false →
      delete_chat_session st sid uid = st) ∧
    delete_chat_session (delete_chat_session st sid uid) sid uid
      = delete_chat_session st sid uid := by
  refine ⟨?_, ?_, ?_⟩
  · intro hown
    constructor
    · intro m hm hsid
      simp only [delete_chat_session, hown, if_true, List.mem_map] at hm
      obtain ⟨a, _, rfl⟩ := hm
      by_cases hc : a.session_id = sid
      · simp [hc]
      · rw [if_neg (by simpa using hc)] at hsid
        exact absurd hsid hc
    · intro s hs
      simp only [delete_chat_session, hown, if_true, List.mem_filter] at hs
      rintro ⟨h1, h2⟩
      have := hs.2
      simp [h1, h2] at this
  · intro hown
    simp [delete_chat_session, hown]
  · by_cases hown : st.sessions.any (fun s => s.id == sid && s.user_id == uid) = true
    · have hgone : ((delete_chat_session st sid uid).sessions.any
          (fun s => s.id == sid && s.user_id == uid)) = false := by
        simp only [delete_chat_session, hown, if_true]
        rw [List.any_eq_false]
        intro s hs
        have h2 := (List.mem_filter.mp hs).2
        simp only [Bool.not_eq_true'] at h2
        simp [h2]
      conv_lhs => rw [delete_chat_session]
      rw [hgone]
      simp
    · have hown2 : st.sessions.any (fun s => s.id == sid && s.user_id == uid) = false :=
        Bool.not_eq_true _ ▸ Bool.eq_false_iff.mpr hown
      simp [delete_chat_session, hown2]

/-- C7 witness: delete session s1 of sampleStore by its owner u1; the member
messages are marked deleted, the session row is gone, and a second delete
changes nothing. -/
theorem delete_session_witness :
    (∀ m ∈ (delete_chat_session sampleStore "s1" "u1").messages,
        m.session_id = "s1" → m.is_deleted = true) ∧
    (∀ s ∈ (delete_chat_session sampleStore "s1" "u1").sessions,
        ¬(s.id = "s1" ∧ s.user_id = "u1")) ∧
    delete_chat_session (delete_chat_session sampleStore "s1" "u1") "s1" "u1"
      = delete_chat_session sampleStore "s1" "u1" :=
  ⟨((delete_session_soft_delete_idempotent sampleStore "s1" "u1").1 (by decide)).1,
   ((delete_session_soft_delete_idempotent sampleStore "s1" "u1").1 (by decide)).2,
   (delete_session_soft_delete_idempotent sampleStore "s1" "u1").2.2⟩

/-! ## C8 -/

theorem mem_sortByTimestamp (l : List MessageRow) (m : MessageRow) :
    m ∈ sortByTimestamp l ↔ m ∈ l :=
  (List.perm_insertionSort tsLe l).mem_iff

theorem sorted_sortByTimestamp (l : List MessageRow) :
    (sortByTimestamp l).Pairwise tsLe :=
  List.sorted_insertionSort tsLe l

/-- C8: listing a session's messages returns only the non-deleted messages
of the session in ascending timestamp order, each with its attachment list;
it returns the empty sequence when the session is unknown or foreign;
every non-deleted member message appears; and a soft-deleted member message
is absent from the listing while remaining, with is_deleted true, in the
administrative debug read. -/
theorem list_messages_soft_delete_view (st : DBState) (sid uid : String) :
    (∀ p ∈ get_session_messages st sid uid,
        p.1 ∈ st.messages ∧ p.1.session_id = sid ∧ p.1.is_deleted = false ∧
        p.2 = st.attachments.filter (fun a => a.message_id == p.1.id)) ∧
    ((get_session_messages st sid uid).map Prod.fst).Pairwise tsLe ∧
    (st.sessions.any (fun s => s.id == sid && s.user_id == uid) = true →
      ∀ m ∈ st.messages, m.session_id = sid → m.is_deleted = false →
        (m, st.attachments.filter (fun a => a.message_id == m.id))
          ∈ get_session_messages st sid uid) ∧
    (st.sessions.any (fun s => s.id == sid && s.user_id == uid) = false →
      get_session_messages st sid uid = []) ∧
    (∀ m ∈ st.messages, m.session_id = sid → m.is_deleted = true →
      (∀ p ∈ get_session_messages st sid uid, p.1 ≠ m) ∧
      m ∈ debug_session_messages st sid) := by
  refine ⟨?_, ?_, ?_, ?_, ?_⟩
  · intro p hp
    cases hb : st.sessions.any (fun s => s.id == sid && s.user_id == uid) with
    | false => simp [get_session_messages, hb] at hp
    | true =>
        simp only [get_session_messages, hb, if_true] at hp
        obtain ⟨m, hm, rfl⟩ := List.mem_map.mp hp
        have hm2 := List.mem_filter.mp ((mem_sortByTimestamp _ _).mp hm)
        have hflags : m.session_id = sid ∧ m.is_deleted = false := by
          simpa using hm2.2
        exact ⟨hm2.1, hflags.1, hflags.2, rfl⟩
  · cases hb : st.sessions.any (fun s => s.id == sid && s.user_id == uid) with
    | false => simp [get_session_messages, hb]
    | true =>
        have hcomp : (Prod.fst ∘ fun m : MessageRow =>
            (m, st.attachments.filter (fun a => a.message_id == m.id))) = id := rfl
        simp only [get_session_messages, hb, if_true, List.map_map, hcomp, List.map_id]
        exact sorted_sortByTimestamp _
  · intro hown m hm hsid hdel
    simp only [get_session_messages, hown, if_true]
    exact List.mem_map.mpr ⟨m,
      (mem_sortByTimestamp _ _).mpr
        (List.mem_filter.mpr ⟨hm, by simp [hsid, hdel]⟩), rfl⟩
  · intro hown
    simp [get_session_messages, hown]
  · intro m hm hsid hdel
    constructor
    · intro p hp heq
      cases hb : st.sessions.any (fun s => s.id == sid && s.user_id == uid) with
      | false => simp [get_session_messages, hb] at hp
      | true =>
          simp only [get_session_messages, hb, if_true] at hp
          obtain ⟨x, hx, rfl⟩ := List.mem_map.mp hp
          have hx2 := List.mem_filter.mp ((mem_sortByTimestamp _ _).mp hx)
          have hflags : x.session_id = sid ∧ x.is_deleted = false := by
            simpa using hx2.2
          have hxdel := hflags.2
          rw [show x = m from heq, hdel] at hxdel
          exact Bool.true_eq_false.mp hxdel
    · exact (mem_sortByTimestamp _ _).mpr
        (List.mem_filter.mpr ⟨hm, by simp [hsid]⟩)

/-- C8 witness: in sampleStore, the non-deleted user message of session s1
is listed with its (empty) attachment list; the soft-deleted message m3 is
absent from the listing but present in the debug read. -/
theorem list_messages_witness :
    ((sampleMsgU2,
        sampleStore.attachments.filter (fun a => a.message_id == sampleMsgU2.id))
      ∈ get_session_messages sampleStore "s1" "u1") ∧
    (∀ p ∈ get_session_messages sampleStore "s1" "u1", p.1 ≠ sampleDeletedMsg) ∧
    sampleDeletedMsg ∈ debug_session_messages sampleStore "s1" :=
  ⟨(list_messages_soft_delete_view sampleStore "s1" "u1").2.2.1 (by decide)
      sampleMsgU2 (by decide) (by decide) (by decide),
   ((list_messages_soft_delete_view sampleStore "s1" "u1").2.2.2.2
      sampleDeletedMsg (by decide) (by decide) (by decide)).1,
   ((list_messages_soft_delete_view sampleStore "s1" "u1").2.2.2.2
      sampleDeletedMsg (by decide) (by decide) (by decide)).2⟩

/-! ## C9 -/

/-- C9 (amended): every entry of the session listing is a session of the
caller shown under display_title; when an explicit (necessarily non-empty)
title is set it is returned unchanged regardless of message content; when
no explicit title is set and the first non-deleted user message has
non-empty content, the displayed title is that content, truncated to its
first 47 characters plus an ellipsis exactly when it is longer than 50
characters; an empty first-message content is falsy in the source and
falls to the generic session-id label instead. -/
theorem session_title_fallback (st : DBState) (uid : String) (s : SessionRow) :
    (∀ e ∈ list_chat_sessions st uid,
        ∃ s2 ∈ st.sessions, s2.user_id = uid ∧ e = (s2.id, display_title st s2)) ∧
    (∀ t, s.title = some t → t ≠ "" → display_title st s = t) ∧
    ((s.title = none ∨ s.title = some "") →
      ∀ m, first_user_message st s.id = some m → m ≠ "" →
        (50 < m.length → display_title st s = m.take 47 ++ "...") ∧
        (m.length ≤ 50 → display_title st s = m)) ∧
    ((s.title = none ∨ s.title = some "") →
      first_user_message st s.id = some "" →
        display_title st s = "Chat Session (" ++ s.id.take 6 ++ "...)") := by
  refine ⟨?_, ?_, ?_, ?_⟩
  · intro e he
    simp only [list_chat_sessions, List.mem_map] at he
    obtain ⟨s2, hs2, rfl⟩ := he
    have hs2m := List.mem_filter.mp
      ((List.perm_insertionSort sessionDescLe _).mem_iff.mp hs2)
    exact ⟨s2, hs2m.1, by simpa using hs2m.2, rfl⟩
  · intro t ht hne
    have hbeq : (t == "") = false := by
      simpa using hne
    simp [display_title, resolve_title, ht, hbeq]
  · intro hnone m hm hne
    have hgetd : (s.title.getD "" == "") = true := by
      rcases hnone with h | h <;> simp [h]
    have hb : (m != "") = true := by
      simpa using hne
    constructor
    · intro hlen
      simp only [display_title, resolve_title, hgetd, if_true, hm]
      rw [if_pos (by simp [hb, hlen])]
    · intro hlen
      simp only [display_title, resolve_title, hgetd, if_true, hm]
      rw [if_neg (by simp [hb, Nat.not_lt.mpr hlen]), if_pos hb]
  · intro hnone hm0
    have hgetd : (s.title.getD "" == "") = true := by
      rcases hnone with h | h <;> simp [h]
    simp [display_title, resolve_title, hgetd, hm0]

set_option maxRecDepth 8000 in
/-- C9 witness: in a store whose session has no explicit title and whose
first user message is 60 characters long, the displayed title is the
47-character truncation plus ellipsis; with an explicit title set, that
title is displayed. -/
theorem session_title_fallback_witness :
    (display_title
        { sessions := [{ id := "s8", user_id := "u1", created_at := 1, last_updated_at := 1 }],
          messages := [{ id := "m8", session_id := "s8", user_id := "u1", role := "user",
                         content := String.mk (List.replicate 60 'x'), timestamp := 1 }] }
        { id := "s8", user_id := "u1", created_at := 1, last_updated_at := 1 }
      = String.mk (List.replicate 47 'x') ++ "...") ∧
    (display_title sampleStore
        { id := "s1", user_id := "u1", created_at := 1, last_updated_at := 2,
          title := some "My title" }
      = "My title") := by
  constructor
  · have h := ((session_title_fallback
        { sessions := [{ id := "s8", user_id := "u1", created_at := 1, last_updated_at := 1 }],
          messages := [{ id := "m8", session_id := "s8", user_id := "u1", role := "user",
                         content := String.mk (List.replicate 60 'x'), timestamp := 1 }] }
        "u1"
        { id := "s8", user_id := "u1", created_at := 1, last_updated_at := 1 }).2.2.1
      (Or.inl rfl) (String.mk (List.replicate 60 'x')) (by decide) (by decide)).1
      (by decide)
    simpa using h
  · exact (session_title_fallback sampleStore "u1"
      { id := "s1", user_id := "u1", created_at := 1, last_updated_at := 2,
        title := some "My title" }).2.1 "My title" rfl (by decide)

/-- C9 counterexample: session s8 of c9EmptyStore has no explicit title and
its first non-deleted user message exists with empty content; the claim
predicts the displayed title is that content (empty, not longer than 50
characters), but the handler tests first_message for truthiness and shows
the generic session-id label instead. -/
theorem session_title_empty_counterexample :
    c9EmptySession.title = none ∧
    first_user_message c9EmptyStore "s8" = some "" ∧
    display_title c9EmptyStore c9EmptySession = "Chat Session (s8...)" ∧
    display_title c9EmptyStore c9EmptySession ≠ "" :=
  ⟨rfl, rfl, rfl, by decide⟩

/-! ## C4 -/

/-- C4 counterexample: sampleStore holds message m1, which exists, has role
user and is not deleted, but is authored by u2; the claim predicts a
Forbidden (403) rejection for caller u1, yet update_chat_message answers
404 — the handler raises NotFound for every rejection, never Forbidden. -/
theorem edit_authorization_counterexample :
    (∃ m ∈ sampleStore.messages,
        m.id = "m1" ∧ m.role = "user" ∧ m.is_deleted = false ∧ m.user_id ≠ "u1") ∧
    (update_chat_message sampleStore "m1" "u1" "new" 5).1 = 404 ∧
    (update_chat_message sampleStore "m1" "u1" "new" 5).1 ≠ 403 := by
  refine ⟨⟨sampleMsgU2, by decide, by decide, by decide, by decide, by decide⟩, ?_, ?_⟩
  · rfl
  · decide

/-- C4 amended: an edit succeeds (HTTP 200) exactly when some stored message
has the requested id, the caller as author, role user and is not deleted;
every rejection — wrong author, wrong role, deleted, or absent — is the
same NotFound (404) response, and a rejected edit leaves the store
unchanged. -/
theorem edit_authorization_amended (st : DBState) (mid uid c : String) (now : Nat) :
    ((update_chat_message st mid uid c now).1 = 200 ↔
      ∃ m ∈ st.messages,
        m.id = mid ∧ m.user_id = uid ∧ m.role = "user" ∧ m.is_deleted = false) ∧
    ((update_chat_message st mid uid c now).1 ≠ 200 →
      update_chat_message st mid uid c now = (404, st)) := by
  unfold update_chat_message
  cases hf : st.messages.find?
      (fun m => m.id == mid && m.user_id == uid &&
                m.role == "user" && !m.is_deleted) with
  | none =>
      constructor
      · simp only []
        constructor
        · intro h; exact absurd h (by decide)
        · rintro ⟨m, hm, h1, h2, h3, h4⟩
          have := List.find?_eq_none.mp hf m hm
          simp [h1, h2, h3, h4] at this
      · intro _; rfl
  | some m =>
      constructor
      · constructor
        · intro _
          have hp := List.find?_some hf
          have hmem := List.mem_of_find?_eq_some hf
          have hps : m.id = mid ∧ m.user_id = uid ∧ m.role = "user" ∧
              m.is_deleted = false := by
            simpa [Bool.and_assoc] using hp
          exact ⟨m, hmem, hps⟩
        · intro _; rfl
      · intro h; exact absurd rfl h

/-- C4 amended witness: editing m1 in sampleStore as u1 (not its author)
answers 404 and leaves the store unchanged. -/
theorem edit_authorization_amended_witness :
    update_chat_message sampleStore "m1" "u1" "zz" 5 = (404, sampleStore) :=
  (edit_authorization_amended sampleStore "m1" "u1" "zz" 5).2 (by decide)

/-! ## C3 -/

theorem link_one_none (st : DBState) (dir : Except Unit (List String))
    (att : AttachmentData) (mid uid : String) (now : Nat)
    (hf : find_upload_file dir att.temp_file_id = none) :
    link_one st dir att mid uid now = st := by
  simp [link_one, hf]

theorem link_one_some (st : DBState) (dir : Except Unit (List String))
    (att : AttachmentData) (fname mid uid : String) (now : Nat)
    (hf : find_upload_file dir att.temp_file_id = some fname) :
    link_one st dir att mid uid now =
      { st with attachments := st.attachments ++
          [linked_attachment_row att fname mid uid now] } := by
  simp [link_one, hf]

theorem link_attachments_spec :
    ∀ (atts : List AttachmentData) (st : DBState) (dir : Except Unit (List String))
      (mid uid : String) (now : Nat),
    (link_attachments st dir atts mid uid now).messages = st.messages ∧
    (link_attachments st dir atts mid uid now).sessions = st.sessions ∧
    (link_attachments st dir atts mid uid now).attachments =
      st.attachments ++ atts.filterMap (fun att =>
        (find_upload_file dir att.temp_file_id).map
          (fun fname => linked_attachment_row att fname mid uid now)) := by
  intro atts
  induction atts with
  | nil =>
      intro st dir mid uid now
      exact ⟨rfl, rfl, by simp [link_attachments]⟩
  | cons a as ih =>
      intro st dir mid uid now
      have hstep : link_attachments st dir (a :: as) mid uid now
          = link_attachments (link_one st dir a mid uid now) dir as mid uid now := rfl
      cases hf : find_upload_file dir a.temp_file_id with
      | none =>
          rw [hstep, link_one_none st dir a mid uid now hf]
          have h := ih st dir mid uid now
          refine ⟨h.1, h.2.1, ?_⟩
          rw [h.2.2]
          simp [List.filterMap_cons, hf]
      | some fname =>
          rw [hstep, link_one_some st dir a fname mid uid now hf]
          have h := ih { st with attachments := st.attachments ++
              [linked_attachment_row a fname mid uid now] } dir mid uid now
          refine ⟨h.1, h.2.1, ?_⟩
          rw [h.2.2]
          simp [List.filterMap_cons, hf]

theorem link_attachments_dir_error (atts : List AttachmentData) (st : DBState)
    (mid uid : String) (now : Nat) :
    link_attachments st (.error ()) atts mid uid now = st := by
  induction atts generalizing st with
  | nil => rfl
  | cons a as ih => exact ih st

/-- C3 amended: each attachment reference whose temporary id matches no file
is skipped (and logged) without failing the message save — the linking loop
only ever appends the resolved attachments and never touches messages or
sessions — and a failure listing the upload directory is handled the same
way: it is caught inside the per-attachment loop, so the whole chat call
behaves exactly as if no attachments had been supplied, rather than
aborting the message save. -/
theorem attachment_linking_resilience :
    (∀ (atts : List AttachmentData) (st : DBState) (dir : Except Unit (List String))
        (mid uid : String) (now : Nat),
      (link_attachments st dir atts mid uid now).messages = st.messages ∧
      (link_attachments st dir atts mid uid now).sessions = st.sessions ∧
      (link_attachments st dir atts mid uid now).attachments =
        st.attachments ++ atts.filterMap (fun att =>
          (find_upload_file dir att.temp_file_id).map
            (fun fname => linked_attachment_row att fname mid uid now))) ∧
    (∀ (req : ChatRequest) (uid : String) (env : ChatEnv) (st : DBState),
      env.upload_dir = .error () →
      chat req uid env st = chat { req with attachments := [] } uid env st) := by
  refine ⟨link_attachments_spec, ?_⟩
  intro req uid env st h
  have hsid : effective_session_id { req with attachments := [] } env
      = effective_session_id req env := rfl
  simp only [chat, h, link_attachments_dir_error, hsid]

/-- C3 amended witness: with the upload directory unreadable, the chat call
of c3Req behaves exactly as the same call with no attachments. -/
theorem attachment_linking_resilience_witness :
    chat c3Req "u1" c3Env {} = chat { c3Req with attachments := [] } "u1" c3Env {} :=
  attachment_linking_resilience.2 c3Req "u1" c3Env {} rfl

/-- C3 counterexample: c3Env lists the upload directory with an error, yet
the chat call with an attachment reference is not aborted: it still answers
the model reply and persists the user message, contradicting the claim that
an unlistable upload directory is fatal for the whole message save. -/
theorem attachment_dir_failure_counterexample :
    c3Env.upload_dir = .error () ∧
    c3Req.attachments ≠ [] ∧
    (chat c3Req "u1" c3Env {}).1 = .ok ("hi", "s1") ∧
    userCount (chat c3Req "u1" c3Env {}).2.messages = 1 := by
  refine ⟨rfl, by decide, rfl, by decide⟩

/-! ## C10 -/

theorem chat_with_custom_model_title_gen (cenv : CustomEnv) (uid sid mid purpose : String)
    (st : DBState) (ht : title_gen_mode sid purpose = true) (res : String × String)
    (hok : (chat_with_custom_model cenv uid sid mid purpose st).1 = .ok res) :
    (chat_with_custom_model cenv uid sid mid purpose st).2 = st := by
  cases ho : cenv.outcome with
  | modelNotFound => simp [chat_with_custom_model, ho]
  | assistantRunFailed status =>
      simp only [chat_with_custom_model, ho] at hok
      simp at hok
  | assistantReply c => simp [chat_with_custom_model, ho, ht]
  | gptNoChoices =>
      simp only [chat_with_custom_model, ho] at hok
      simp at hok
  | gptReply c => simp [chat_with_custom_model, ho, ht]

/-- C10 amended: a blocking chat call in title-generation mode persists
nothing whenever it returns a reply: no user message, no assistant message
and no session row are written. When the custom-model upstream fails,
however, the call does not return a reply and its error-handling saves an
error-tagged assistant message and a session row even in title-generation
mode (see the counterexample). -/
theorem title_gen_no_persistence (req : ChatRequest) (uid : String) (env : ChatEnv)
    (st : DBState) (c sid : String)
    (ht : title_gen_mode (effective_session_id req env) req.purpose = true)
    (hok : (chat req uid env st).1 = .ok (c, sid)) :
    (chat req uid env st).2 = st := by
  revert hok
  unfold chat
  dsimp only
  split
  · intro _; rfl
  · split
    · intro _; rfl
    · split
      · rename_i mid hmodel
        split
        · rename_i content mu st2 heq
          intro _
          have h2 := chat_with_custom_model_title_gen env.custom uid
            (effective_session_id req env) mid req.purpose st ht (content, mu)
            (by rw [heq])
          rw [heq] at h2
          exact h2
        · intro hok2
          simp at hok2
      · split
        · intro _; rfl
        · intro _; rfl

/-- C10 amended witness: a successful title-generation call (purpose
Generate title) on the default model returns the reply and leaves the
store empty. -/
theorem title_gen_no_persistence_witness :
    (chat c10OkReq "u1" c3Env {}).2 = ({} : DBState) :=
  title_gen_no_persistence c10OkReq "u1" c3Env {} "hi" "s2" (by decide) rfl

/-- C10 counterexample: a title-generation request (session id containing
__title_gen) routed to a custom model whose assistant run fails does not
return a reply — it raises 500 — and it does persist rows: an error-tagged
assistant message and a session row are written despite title-generation
mode. -/
theorem title_gen_counterexample :
    title_gen_mode (effective_session_id c10Req c10Env) c10Req.purpose = true ∧
    (chat c10Req "u1" c10Env {}).1 = .error 500 ∧
    (chat c10Req "u1" c10Env {}).2.messages ≠ [] ∧
    (chat c10Req "u1" c10Env {}).2.sessions ≠ [] :=
  ⟨by decide, rfl, by decide, by decide⟩

/-! ## Streaming lemmas -/

theorem assistant_beq_user : (("assistant" : String) == "user") = false := by decide

theorem assistant_beq_assistant : (("assistant" : String) == "assistant") = true := by decide

theorem user_beq_user : (("user" : String) == "user") = true := by decide

theorem chat_with_custom_model_userCount (cenv : CustomEnv) (uid sid mid purpose : String)
    (st : DBState) :
    userCount (chat_with_custom_model cenv uid sid mid purpose st).2.messages
      = userCount st.messages := by
  cases ho : cenv.outcome <;>
    simp only [chat_with_custom_model, ho] <;>
    split_ifs <;>
    simp [userCount_save_with_touch, assistant_beq_user]

theorem chat_with_custom_model_assistantCount (cenv : CustomEnv) (uid sid mid purpose : String)
    (st : DBState) :
    assistantCount (chat_with_custom_model cenv uid sid mid purpose st).2.messages
      ≤ assistantCount st.messages + 1 := by
  cases ho : cenv.outcome <;>
    simp only [chat_with_custom_model, ho] <;>
    (try split_ifs) <;>
    simp [assistantCount_save_with_touch, assistant_beq_assistant]

theorem doneCount_chunk_map (l : List String) :
    doneCount (l.map StreamEvent.chunk) = 0 := by
  simp only [doneCount, List.countP_map]
  rw [List.countP_eq_zero]
  intro a _
  simp [Function.comp]

theorem stream_model_phase_userCount (inp : StreamInput) (env : StreamEnv) (st1 : DBState) :
    userCount (stream_model_phase inp env st1).2.1.messages = userCount st1.messages := by
  cases hm : inp.model_id with
  | some mid =>
      rcases hcc : chat_with_custom_model env.custom inp.user_id inp.session_id mid
          inp.purpose st1 with ⟨r, st2⟩
      have hu := chat_with_custom_model_userCount env.custom inp.user_id
        inp.session_id mid inp.purpose st1
      rw [hcc] at hu
      cases r with
      | ok pr =>
          rcases pr with ⟨content, mu⟩
          simpa only [stream_model_phase, hm, hcc] using hu
      | error code =>
          simpa only [stream_model_phase, hm, hcc] using hu
  | none =>
      simp only [stream_model_phase, hm]
      split_ifs <;>
        simp [userCount_save_with_touch, assistant_beq_user]

theorem stream_model_phase_assistantCount (inp : StreamInput) (env : StreamEnv) (st1 : DBState) :
    assistantCount (stream_model_phase inp env st1).2.1.messages
      ≤ assistantCount st1.messages + 1 := by
  cases hm : inp.model_id with
  | some mid =>
      rcases hcc : chat_with_custom_model env.custom inp.user_id inp.session_id mid
          inp.purpose st1 with ⟨r, st2⟩
      have ha := chat_with_custom_model_assistantCount env.custom inp.user_id
        inp.session_id mid inp.purpose st1
      rw [hcc] at ha
      cases r with
      | ok pr =>
          rcases pr with ⟨content, mu⟩
          simpa only [stream_model_phase, hm, hcc] using ha
      | error code =>
          simpa only [stream_model_phase, hm, hcc] using ha
  | none =>
      simp only [stream_model_phase, hm]
      split_ifs <;>
        simp [assistantCount_save_with_touch, assistant_beq_assistant]

theorem stream_model_phase_flag (inp : StreamInput) (env : StreamEnv) (st1 : DBState)
    (hflag : (stream_model_phase inp env st1).2.2 = false) :
    assistantCount (stream_model_phase inp env st1).2.1.messages
      = assistantCount st1.messages := by
  revert hflag
  cases hm : inp.model_id with
  | some mid =>
      rcases hcc : chat_with_custom_model env.custom inp.user_id inp.session_id mid
          inp.purpose st1 with ⟨r, st2⟩
      cases r with
      | ok pr =>
          rcases pr with ⟨content, mu⟩
          simp only [stream_model_phase, hm, hcc]
          intro hflag
          simp at hflag
      | error code =>
          simp only [stream_model_phase, hm, hcc]
          intro hflag
          simp at hflag
  | none =>
      simp only [stream_model_phase, hm]
      split_ifs <;> intro hflag <;> simp_all

theorem stream_model_phase_doneCount (inp : StreamInput) (env : StreamEnv) (st1 : DBState) :
    doneCount (stream_model_phase inp env st1).1 = 0 := by
  cases hm : inp.model_id with
  | some mid =>
      rcases hcc : chat_with_custom_model env.custom inp.user_id inp.session_id mid
          inp.purpose st1 with ⟨r, st2⟩
      cases r with
      | ok pr =>
          rcases pr with ⟨content, mu⟩
          simp only [stream_model_phase, hm, hcc]
          split_ifs <;> simp [doneCount]
      | error code =>
          simp only [stream_model_phase, hm, hcc]
          simp [doneCount]
  | none =>
      simp only [stream_model_phase, hm]
      split_ifs <;>
        simp [doneCount, List.countP_append, doneCount_chunk_map]

theorem user_beq_assistant : (("user" : String) == "assistant") = false := by decide

theorem doneCount_append (l1 l2 : List StreamEvent) :
    doneCount (l1 ++ l2) = doneCount l1 + doneCount l2 :=
  List.countP_append _ _ _

theorem stream_finish_counts (inp : StreamInput) (env : StreamEnv) (st1 : DBState) :
    assistantCount (stream_finish inp env st1).db.messages
      ≤ assistantCount st1.messages + 1 ∧
    userCount (stream_finish inp env st1).db.messages = userCount st1.messages := by
  have hu := stream_model_phase_userCount inp env st1
  have ha := stream_model_phase_assistantCount inp env st1
  cases hx : env.unexpected_error with
  | false =>
      refine ⟨?_, ?_⟩
      · simpa [stream_finish, hx] using ha
      · simpa [stream_finish, hx] using hu
  | true =>
      cases hflag : (stream_model_phase inp env st1).2.2 with
      | true =>
          refine ⟨?_, ?_⟩
          · simpa [stream_finish, hx, hflag] using ha
          · simpa [stream_finish, hx, hflag] using hu
      | false =>
          cases ho : env.outer_save_ok with
          | false =>
              refine ⟨?_, ?_⟩
              · simpa [stream_finish, hx, hflag, ho] using ha
              · simpa [stream_finish, hx, hflag, ho] using hu
          | true =>
              have heq := stream_model_phase_flag inp env st1 hflag
              refine ⟨?_, ?_⟩
              · simp [stream_finish, hx, hflag, ho, assistantCount_save_with_touch,
                  assistant_beq_assistant, heq]
              · simp [stream_finish, hx, hflag, ho, userCount_save_with_touch,
                  assistant_beq_user, hu]

theorem stream_finish_events_done (inp : StreamInput) (env : StreamEnv) (st1 : DBState)
    (hx : env.unexpected_error = false) :
    (stream_finish inp env st1).events
      = (stream_model_phase inp env st1).1 ++ [.done inp.session_id] := by
  simp [stream_finish, hx]

theorem stream_finish_done (inp : StreamInput) (env : StreamEnv) (st1 : DBState)
    (hx : env.unexpected_error = false) :
    doneCount (stream_finish inp env st1).events = 1 ∧
    (stream_finish inp env st1).events.getLast? = some (.done inp.session_id) := by
  rw [stream_finish_events_done inp env st1 hx]
  constructor
  · rw [doneCount_append, stream_model_phase_doneCount]
    rfl
  · exact List.getLast?_concat _

/-! ## C1 -/

/-- C1 (amended): per streamed turn, at most one terminal assistant message
is persisted — the generator-level catch-all consults the message_saved
flag before writing a second record, so even a chunk-level error followed
by a catch-all error yields a single assistant row — and exactly one user
message is persisted exactly when the history is valid, its last entry is
user-role and the user-message save commits. Zero assistant records are
possible (see the counterexample), so the original "never zero" clause is
dropped. -/
theorem stream_turn_message_counts (inp : StreamInput) (env : StreamEnv) (st : DBState) :
    assistantCount (stream_chat_generator inp env st).db.messages
      ≤ assistantCount st.messages + 1 ∧
    userCount (stream_chat_generator inp env st).db.messages
      = userCount st.messages +
        (if inp.history_valid && inp.last_role_user && env.user_save_ok then 1 else 0) := by
  cases hv : inp.history_valid with
  | false =>
      refine ⟨?_, ?_⟩ <;> simp [stream_chat_generator, hv]
  | true =>
      cases hl : inp.last_role_user with
      | false =>
          have h := stream_finish_counts inp env st
          have hres : stream_chat_generator inp env st = stream_finish inp env st := by
            simp [stream_chat_generator, hv, hl]
          rw [hres]
          refine ⟨h.1, ?_⟩
          rw [h.2]
          simp [hv, hl]
      | true =>
          cases hu : env.user_save_ok with
          | false =>
              refine ⟨?_, ?_⟩ <;> simp [stream_chat_generator, hv, hl, hu]
          | true =>
              have h := stream_finish_counts inp env
                (save_message_with_touch st env.user_message_id inp.session_id
                  inp.user_id "user" inp.user_content env.now none)
              have hres : stream_chat_generator inp env st
                  = stream_finish inp env
                      (save_message_with_touch st env.user_message_id inp.session_id
                        inp.user_id "user" inp.user_content env.now none) := by
                simp [stream_chat_generator, hv, hl, hu]
              rw [hres]
              have ha1 : assistantCount (save_message_with_touch st env.user_message_id
                  inp.session_id inp.user_id "user" inp.user_content env.now
                  none).messages = assistantCount st.messages := by
                simp [assistantCount_save_with_touch, user_beq_assistant]
              have hu1 : userCount (save_message_with_touch st env.user_message_id
                  inp.session_id inp.user_id "user" inp.user_content env.now
                  none).messages = userCount st.messages + 1 := by
                simp [userCount_save_with_touch, user_beq_user]
              refine ⟨?_, ?_⟩
              · calc assistantCount (stream_finish inp env _).db.messages
                    ≤ assistantCount (save_message_with_touch st env.user_message_id
                        inp.session_id inp.user_id "user" inp.user_content env.now
                        none).messages + 1 := h.1
                  _ = assistantCount st.messages + 1 := by rw [ha1]
              · rw [h.2, hu1]
                simp [hv, hl, hu]

/-- C1 counterexample: a well-formed turn whose upstream stream succeeds
with no content at all completes (done event emitted last) having persisted
one user message and zero assistant messages — the claimed "exactly one
terminal assistant message, never zero" fails. -/
theorem stream_zero_assistant_counterexample :
    (stream_chat_generator c1Input c1Env {}).events.getLast? = some (.done "s1") ∧
    userCount (stream_chat_generator c1Input c1Env {}).db.messages = 1 ∧
    assistantCount (stream_chat_generator c1Input c1Env {}).db.messages = 0 :=
  ⟨rfl, by decide, by decide⟩

/-! ## C2 -/

/-- C2 (amended): the event sequence contains exactly one done event,
emitted last, whenever the history is valid, the user-message save does not
fail, and no unexpected generator-level error occurs; the invalid-history,
user-save-failure and catch-all paths instead end the stream with an error
event and no done event (see the counterexample). -/
theorem stream_done_event (inp : StreamInput) (env : StreamEnv) (st : DBState)
    (h1 : inp.history_valid = true)
    (h2 : inp.last_role_user = true → env.user_save_ok = true)
    (h3 : env.unexpected_error = false) :
    doneCount (stream_chat_generator inp env st).events = 1 ∧
    (stream_chat_generator inp env st).events.getLast?
      = some (.done inp.session_id) := by
  cases hl : inp.last_role_user with
  | false =>
      have hres : stream_chat_generator inp env st = stream_finish inp env st := by
        simp [stream_chat_generator, h1, hl]
      rw [hres]
      exact stream_finish_done inp env st h3
  | true =>
      have hu := h2 hl
      have hres : stream_chat_generator inp env st
          = stream_finish inp env
              (save_message_with_touch st env.user_message_id inp.session_id
                inp.user_id "user" inp.user_content env.now none) := by
        simp [stream_chat_generator, h1, hl, hu]
      rw [hres]
      exact stream_finish_done inp env _ h3

/-- C2 amended witness: the concrete well-formed turn c1Input/c1Env emits
exactly one done event, last. -/
theorem stream_done_event_witness :
    doneCount (stream_chat_generator c1Input c1Env {}).events = 1 ∧
    (stream_chat_generator c1Input c1Env {}).events.getLast?
      = some (.done "s1") :=
  stream_done_event c1Input c1Env {} rfl (fun _ => rfl) rfl

/-- C2 counterexample: on invalid history the generator yields a single
error event and returns — no done event is ever emitted, contradicting the
claim that every invocation ends with exactly one done event. -/
theorem stream_no_done_counterexample :
    c2Input.history_valid = false ∧
    doneCount (stream_chat_generator c2Input c1Env {}).events = 0 ∧
    (stream_chat_generator c2Input c1Env {}).events
      = [.err "Invalid history format"] :=
  ⟨rfl, by decide, rfl⟩

/-! ## C5 -/

/-- C5: if the user-message save fails on a valid turn whose last history
entry is user-role, the generator yields one error event and stops: the
store is unchanged (no assistant message persisted) and the upstream model
is never invoked. -/
theorem user_save_failure_aborts (inp : StreamInput) (env : StreamEnv) (st : DBState)
    (h1 : inp.history_valid = true) (h2 : inp.last_role_user = true)
    (h3 : env.user_save_ok = false) :
    stream_chat_generator inp env st =
      { events := [.err "Failed to save user message."], db := st,
        upstream_called := false } := by
  simp [stream_chat_generator, h1, h2, h3]

/-- C5 witness: the concrete turn c1Input with a failing user-message save
aborts with one error event, an unchanged store and no upstream call. -/
theorem user_save_failure_aborts_witness :
    stream_chat_generator c1Input { c1Env with user_save_ok := false } {} =
      { events := [.err "Failed to save user message."], db := {},
        upstream_called := false } :=
  user_save_failure_aborts c1Input { c1Env with user_save_ok := false } {} rfl rfl rfl
